import Mathlib

/-!
# Verification of the os-aio-pod-channel connection engine

A shallow embedding of the repository's connection engine, translated from
`src/os_aio_pod_channel/` (channel.py, middleware.py, endpoint.py), together
with theorems settling the frozen claims about it.

Conventions of the embedding:
* Python byte strings are modelled as `String`; a value that may be `None`
  is an `Option String` (`none` = Python `None`).  Python truthiness of a
  byte string is emptiness.
* Fallible Python code returns `Except PyExc _`; an `.error` is a raised
  exception.  Every exception class the engine can see is an `Exception`
  subclass under the repository's supported Python (on Python <= 3.7
  `asyncio.CancelledError` subclasses `Exception`), so both
  `except Exception` and `except BaseException` clauses catch every
  constructor of `PyExc`.
* Event-loop timestamps are modelled as `Int`.
-/

namespace OsAioPodChannel

/-- The exception kinds distinguished by the engine's handlers. -/
inductive PyExc
  | cancelled
  | middlewareError
  | attributeError
  | typeError
  | unboundLocalError
  | osError
  deriving DecidableEq, Repr

deriving instance DecidableEq for Except

/-- The per-channel event tags (channel.py:11-52, enums `EventType`,
`FailEventType`, `TaskEventType`, `ErrorEventType`; the spelling
`TRANSPOT_FINISHED` and `UNKONW` are the source's). -/
inductive Ev
  | FRONTEND_CONNECTED
  | FRONTEND_START_READING
  | BACKEND_CONNECTED
  | BACKEND_START_READING
  | BACKEND_READ_FINISHED
  | FRONTEND_CLOSE
  | FRONTEND_READ_FINISHED
  | BACKEND_CLOSE
  | CLEANUP_FINISHED
  | TRANSPOT_FINISHED
  | FRONTEND_READ_TIMEOUT
  | BACKEND_READ_TIMEOUT
  | FRONTEND_READ_ERROR
  | BACKEND_READ_ERROR
  | FRONTEND_WRITE_ERROR
  | BACKEND_WRITE_ERROR
  | FRONTEND_CLOSE_ERROR
  | BACKEND_CLOSE_ERROR
  | MIDDLEWARE_ERROR
  | UNKONW
  deriving DecidableEq, Repr

/-- Python truthiness of a bytes-or-None value: `None` and `b""` are falsy. -/
def pyTruthy : Option String → Bool
  | none => false
  | some s => !(s == "")

/-! ## Middleware pipeline (middleware.py) -/

/-- A registered middleware callback: the owning middleware's name (used to
observe invocation order) and the hook function `(channel, data) -> data`,
which may raise.  The channel argument is irrelevant to every claim and is
omitted. -/
structure Hook where
  owner : String
  fn : Option String → Except PyExc (Option String)

/-- The exception propagation of `_action` (middleware.py:64-68): a raised
`asyncio.CancelledError` is re-raised unchanged, any other exception is
wrapped into a `MiddlewareException`. -/
def wrapActionExc (e : PyExc) : PyExc :=
  if e = PyExc.cancelled then PyExc.cancelled else PyExc.middlewareError

/-- `MiddlewareManager._action` (middleware.py:60-71): thread `data` through
the callbacks in list order; exceptions per `wrapActionExc`; a callback
returning `None` (and only `None`: the check is `data is None`) ends the
loop with `None`.  The result is instrumented with the list of callback
owners actually awaited. -/
def actionRun : List Hook → Option String → List String × Except PyExc (Option String)
  | [], data => ([], .ok data)
  | cb :: rest, data =>
    match cb.fn data with
    | .error e => ([cb.owner], .error (wrapActionExc e))
    | .ok d =>
      if d = none then ([cb.owner], .ok none)
      else
        let r := actionRun rest d
        (cb.owner :: r.1, r.2)

/-- The three callback registries of `MiddlewareManager`
(middleware.py:13-16).  A close hook is represented by its owner's name and
the outcome of awaiting it. -/
structure MwRegistry where
  forward_callbacks : List Hook
  backward_callbacks : List Hook
  close_callbacks : List (String × Except PyExc Unit)

/-- A middleware instance as seen by registration: its name and its three
optional hooks; `none` models a hook that is not overridden (the source
skips callbacks equal to the `Middleware` base-class method,
middleware.py:89-95). -/
structure MW where
  name : String
  forward : Option (Option String → Except PyExc (Option String))
  backward : Option (Option String → Except PyExc (Option String))
  close : Option (Except PyExc Unit)

/-- `MiddlewareManager._register_callbacks` (middleware.py:83-99): the
forward hook is appended, the backward hook is inserted at position 0, the
close hook is appended; absent hooks register nothing. -/
def registerCallbacks (reg : MwRegistry) (m : MW) : MwRegistry where
  forward_callbacks :=
    reg.forward_callbacks ++ (match m.forward with
      | some f => [⟨m.name, f⟩]
      | none => [])
  backward_callbacks :=
    (match m.backward with
      | some f => [⟨m.name, f⟩]
      | none => []) ++ reg.backward_callbacks
  close_callbacks :=
    reg.close_callbacks ++ (match m.close with
      | some r => [(m.name, r)]
      | none => [])

/-- `MiddlewareManager._setup` (middleware.py:101-109) with every
middleware's `setup` succeeding: register the callbacks of each middleware
in list order, starting from the empty registries. -/
def registerAll (ms : List MW) : MwRegistry :=
  ms.foldl registerCallbacks ⟨[], [], []⟩

/-- `MiddlewareManager.forward` (middleware.py:73-74). -/
def MwRegistry.forwardRun (reg : MwRegistry) (data : Option String) :
    List String × Except PyExc (Option String) :=
  actionRun reg.forward_callbacks data

/-- `MiddlewareManager.backward` (middleware.py:76-77). -/
def MwRegistry.backwardRun (reg : MwRegistry) (data : Option String) :
    List String × Except PyExc (Option String) :=
  actionRun reg.backward_callbacks data

/-- `MiddlewareManager.close` (middleware.py:79-81): await each close
callback in registration order.  The body has no exception handler, so the
first raising hook's exception propagates.  Instrumented with the owners of
the hooks actually awaited. -/
def closeHooksRun : List (String × Except PyExc Unit) → List String × Except PyExc Unit
  | [] => ([], .ok ())
  | (o, r) :: rest =>
    match r with
    | .error e => ([o], .error e)
    | .ok _ =>
      let t := closeHooksRun rest
      (o :: t.1, t.2)

/-- Modelled from the spec: the channel invokes `middleware.upstream`
(channel.py:289,329) and `middleware.downstream` (channel.py:375), methods
that are not defined under src/ — `MiddlewareManager` defines the pipelines
as `forward` and `backward`.  Per the spec (§4.3) the upstream path "runs
the forward middleware on the chunk", so `upstream` is modelled as the
forward pipeline. -/
def MwRegistry.upstreamPipeline (reg : MwRegistry) (data : Option String) :
    Except PyExc (Option String) :=
  (reg.forwardRun data).2

/-- Modelled from the spec: see `MwRegistry.upstreamPipeline`; the
downstream path runs the backward pipeline (spec §4.3). -/
def MwRegistry.downstreamPipeline (reg : MwRegistry) (data : Option String) :
    Except PyExc (Option String) :=
  (reg.backwardRun data).2

/-! ## Middleware loading (middleware.py:20-58) -/

/-- A configured middleware entry: priority id (possibly null) and a class
identity (extra options are irrelevant to the claims). -/
structure MwConf where
  id : Option Int
  cls : String
  deriving DecidableEq, Repr

/-- An entry of the pending sorted list (its id is an `Int`: `insert` is
only reached for entries with a non-null id). -/
structure SortedConf where
  id : Int
  cls : String
  deriving DecidableEq, Repr

/-- The `insert` helper of `load_middlewares` (middleware.py:23-32): replace
in place on equal `(id, cls)`, insert before the first entry with a greater
id, else append. -/
def insertConf : List SortedConf → SortedConf → List SortedConf
  | [], c => [c]
  | s :: rest, c =>
    if c.id = s.id ∧ c.cls = s.cls then c :: rest
    else if s.id > c.id then c :: s :: rest
    else s :: insertConf rest c

/-- The loop of `load_middlewares` (middleware.py:44-48) over the configured
entries.  A null-id entry calls the `remove` helper (middleware.py:34-42);
`remove` assigns `sorted_confs = new` as its last statement, which makes
`sorted_confs` local to `remove` for its whole body, so the read
`for sconf in sorted_confs` at middleware.py:37 raises
`UnboundLocalError` — there is no `nonlocal` declaration. -/
def loadMiddlewaresGo : List SortedConf → List MwConf → Except PyExc (List SortedConf)
  | acc, [] => .ok acc
  | acc, c :: rest =>
    match c.id with
    | none => .error PyExc.unboundLocalError
    | some i => loadMiddlewaresGo (insertConf acc ⟨i, c.cls⟩) rest

/-- `MiddlewareManager.load_middlewares` (middleware.py:20-48): the
resulting pending sorted list, or the exception that escapes the loop. -/
def loadMiddlewares (confs : List MwConf) : Except PyExc (List SortedConf) :=
  loadMiddlewaresGo [] confs

/-! ## Endpoints (endpoint.py) -/

namespace NullEndpoint

/-- `NullEndpoint.__init__` sets `closed = True` (endpoint.py:37-39). -/
def closed : Bool := true

/-- `NullEndpoint.read` (endpoint.py:47-48) returns `''` for every `n`. -/
def read (_ : Int) : String := ""

/-- `NullEndpoint.__bool__` (endpoint.py:41-42). -/
def boolView : Bool := false

/-- `NullEndpoint.close` (endpoint.py:56-57): `pass`. -/
def closeOp : Unit := ()

/-- `NullEndpoint.get_extra_info` (endpoint.py:44-45) returns the default. -/
def getExtraInfo (default : Option String) : Option String := default

/-- Python call semantics of `NULL_ENDPOINT.write(...)`: the override is
`def write(self): pass` (endpoint.py:50-51), taking no data parameter, so a
call with a data argument raises `TypeError`; only a zero-argument call is
the no-op `pass`. -/
def writeCall (args : List String) : Except PyExc Unit :=
  if args.length = 0 then .ok () else .error PyExc.typeError

end NullEndpoint

/-! ## Channel transfer actions (channel.py:276-388)

Each `_do_*` action runs a `while True` loop whose suspension points are the
endpoint reads/writes and the middleware pipeline call.  One loop iteration
is embedded as a step function taking the outcomes of those suspension
points as inputs; a run threads a finite script of outcomes through the
steps.  Every `except` clause of the source catches each `PyExc`
constructor (see the header note on Python <= 3.7), which is why the steps
are total functions: no exception escapes the loops. -/

/-- How one iteration of `_do_build_connection`'s loop ends. -/
inductive BuildExit
  /-- `return data` after a transform with `connected` true
  (channel.py:296-298); the action slot becomes `_do_upstream`. -/
  | toUpstream (bypass : Option String)
  /-- `break` out of the loop; the action slot becomes `_do_close_backend`
  (channel.py:300). -/
  | toCloseBackend
  /-- neither: the loop runs another iteration. -/
  | continueLoop
  deriving DecidableEq, Repr

/-- One iteration of the loop of `FullDuplexChannel._do_build_connection`
(channel.py:279-298).  `readRes` is the outcome of
`await self.frontend.read(...)`; `mw` is what the `middleware.upstream`
call site resolves to.  The read is guarded by `except BaseException`
(channel.py:282-284), which records `FRONTEND_READ_ERROR` for every
exception, `CancelledError` included; the middleware call distinguishes
`MiddlewareException` (-> `MIDDLEWARE_ERROR`) from any other
`BaseException` (-> `UNKONW`). -/
def buildConnStep (connected : Bool)
    (mw : Option String → Except PyExc (Option String))
    (readRes : Except PyExc String) (events : List Ev) : List Ev × BuildExit :=
  match readRes with
  | .error _ => (events ++ [Ev.FRONTEND_READ_ERROR], .toCloseBackend)
  | .ok data =>
    if data = "" then (events ++ [Ev.FRONTEND_READ_FINISHED], .toCloseBackend)
    else
      match mw (some data) with
      | .error e =>
        if e = PyExc.middlewareError then (events ++ [Ev.MIDDLEWARE_ERROR], .toCloseBackend)
        else (events ++ [Ev.UNKONW], .toCloseBackend)
      | .ok d => if connected then (events, .toUpstream d) else (events, .continueLoop)

/-- The per-iteration inputs of `_do_upstream`'s loop: the outcome of
`backend.flush_write` (if a write happens) and of `frontend.read`. -/
structure UpIterIn where
  writeExc : Option PyExc
  readRes : Except PyExc String
  deriving Repr

/-- How one iteration of `_do_upstream`'s loop ends. -/
inductive UpIterRes
  /-- loop again, carrying the middleware output as the next `data`. -/
  | continueLoop (next : Option String)
  /-- `break`; the action slot becomes `_do_close_backend` (channel.py:337). -/
  | exitClose
  deriving DecidableEq, Repr

/-- The read-and-transform tail of one `_do_upstream` iteration
(channel.py:320-335): `await self.frontend.read(...)` guarded by
`except BaseException` (-> `FRONTEND_READ_ERROR`, break); empty read ->
`FRONTEND_READ_FINISHED`, break; then the `middleware.upstream` call with
`MiddlewareException` -> `MIDDLEWARE_ERROR` and any other `BaseException`
-> `UNKONW`.  `wrote` carries the chunks already written this iteration. -/
def upstreamIterRead (mw : Option String → Except PyExc (Option String))
    (inp : UpIterIn) (wrote : List String) (events : List Ev) :
    List Ev × List String × UpIterRes :=
  match inp.readRes with
  | .error _ => (events ++ [Ev.FRONTEND_READ_ERROR], wrote, .exitClose)
  | .ok d =>
    if d = "" then (events ++ [Ev.FRONTEND_READ_FINISHED], wrote, .exitClose)
    else
      match mw (some d) with
      | .error e =>
        if e = PyExc.middlewareError then
          (events ++ [Ev.MIDDLEWARE_ERROR], wrote, .exitClose)
        else (events ++ [Ev.UNKONW], wrote, .exitClose)
      | .ok d2 => (events, wrote, .continueLoop d2)

/-- One iteration of the loop of `FullDuplexChannel._do_upstream`
(channel.py:313-335), entered with the pending `data` (the bypass value or
the previous iteration's middleware output).  In source order: if `data` is
truthy, `await self.backend.flush_write(data)` guarded by
`except Exception` (-> `BACKEND_WRITE_ERROR`, break), then the
read-and-transform tail `upstreamIterRead`.  The middle component collects
the chunks written to the backend. -/
def upstreamIter (mw : Option String → Except PyExc (Option String))
    (inp : UpIterIn) (data : Option String) (events : List Ev) :
    List Ev × List String × UpIterRes :=
  if pyTruthy data then
    match inp.writeExc with
    | some _ => (events ++ [Ev.BACKEND_WRITE_ERROR], [], .exitClose)
    | none => upstreamIterRead mw inp [data.getD ""] events
  else upstreamIterRead mw inp [] events

/-- A run of `_do_upstream`'s loop over a finite script of iteration
inputs, starting from the bypass value `data`.  Returns the events, the
concatenated list of chunks written to the backend, and whether the loop
exited by `break` (`true`) or the observed script ended first (`false`). -/
def upstreamRun (mw : Option String → Except PyExc (Option String)) :
    List UpIterIn → Option String → List Ev → List Ev × List String × Bool
  | [], _, events => (events, [], false)
  | inp :: rest, data, events =>
    match upstreamIter mw inp data events with
    | (ev2, w, .exitClose) => (ev2, w, true)
    | (ev2, w, .continueLoop d2) =>
      let t := upstreamRun mw rest d2 ev2
      (t.1, w ++ t.2.1, t.2.2)

/-- One iteration of the loop of `FullDuplexChannel._do_downstream`
(channel.py:365-387).  In source order: `await self.backend.read(...)`
guarded by `except BaseException` (-> `BACKEND_READ_ERROR`, break); empty
read -> `BACKEND_READ_FINISHED`, break; the `middleware.downstream` call as
in `buildConnStep`; then, if the output is truthy,
`await self.frontend.flush_write(data)` guarded by `except Exception`
(-> `FRONTEND_WRITE_ERROR`, break).  Returns events, chunks written to the
frontend, and whether the loop exited. -/
def downstreamIter (mw : Option String → Except PyExc (Option String))
    (readRes : Except PyExc String) (writeExc : Option PyExc)
    (events : List Ev) : List Ev × List String × Bool :=
  match readRes with
  | .error _ => (events ++ [Ev.BACKEND_READ_ERROR], [], true)
  | .ok d =>
    if d = "" then (events ++ [Ev.BACKEND_READ_FINISHED], [], true)
    else
      match mw (some d) with
      | .error e =>
        if e = PyExc.middlewareError then (events ++ [Ev.MIDDLEWARE_ERROR], [], true)
        else (events ++ [Ev.UNKONW], [], true)
      | .ok d2 =>
        if pyTruthy d2 then
          match writeExc with
          | some _ => (events ++ [Ev.FRONTEND_WRITE_ERROR], [], true)
          | none => (events, [d2.getD ""], false)
        else (events, [], false)

/-! ## Transport and cleanup (channel.py:209-265) -/

/-- The channel attributes touched by `transport`, `_transport_cleanup` and
`close`: the debug flag, the event list, `closed`, the `_closing_event`
flag, and the two endpoints' `closed` flags. -/
structure ChanState where
  debug : Bool
  events : List Ev
  closed : Bool
  closingEvent : Bool
  frontendClosed : Bool
  backendClosed : Bool
  deriving DecidableEq, Repr

/-- `Channel.save_event` (channel.py:127-130): append only in debug mode. -/
def saveEvent (st : ChanState) (e : Ev) : ChanState :=
  if st.debug then { st with events := st.events ++ [e] } else st

/-- The cleanup-time behaviour of the environment: the outcome of
`endpoint.close()` for each endpoint if it is invoked (`Endpoint.close`
marks the endpoint closed in a `finally`, endpoint.py:26-32, so the flag is
set even when the writer's close raises), and the registered close hooks
with their outcomes. -/
structure CleanupEnv where
  frontendCloseExc : Option PyExc
  backendCloseExc : Option PyExc
  closeHooks : List (String × Except PyExc Unit)

/-- The frontend arm of the endpoint loop of
`FullDuplexChannel._transport_cleanup` (channel.py:255-262): skip if
already closed, else close (the flag is set even on error) and, in debug
mode, record `FRONTEND_CLOSE`; an exception from `close()` propagates. -/
def cleanupCloseFrontend (env : CleanupEnv) (st : ChanState) : ChanState × Option PyExc :=
  if st.frontendClosed then (st, none)
  else
    let st1 := { st with frontendClosed := true }
    match env.frontendCloseExc with
    | some e => (st1, some e)
    | none => (saveEvent st1 Ev.FRONTEND_CLOSE, none)

/-- The backend arm of the endpoint loop of `_transport_cleanup`. -/
def cleanupCloseBackend (env : CleanupEnv) (st : ChanState) : ChanState × Option PyExc :=
  if st.backendClosed then (st, none)
  else
    let st1 := { st with backendClosed := true }
    match env.backendCloseExc with
    | some e => (st1, some e)
    | none => (saveEvent st1 Ev.BACKEND_CLOSE, none)

/-- `FullDuplexChannel._transport_cleanup` (channel.py:254-265): close the
frontend then the backend if still open, run the middleware close hooks,
then record `CLEANUP_FINISHED`.  The body has no exception handler: the
first exception (from an endpoint close or a close hook) propagates,
skipping everything after it — in particular `CLEANUP_FINISHED`. -/
def transportCleanup (env : CleanupEnv) (st : ChanState) : ChanState × Option PyExc :=
  let f := cleanupCloseFrontend env st
  if f.2.isSome then f
  else
    let b := cleanupCloseBackend env f.1
    if b.2.isSome then b
    else
      match (closeHooksRun env.closeHooks).2 with
      | .error e => (b.1, some e)
      | .ok _ => (saveEvent b.1 Ev.CLEANUP_FINISHED, none)

/-- The inner `finally` of `transport` (channel.py:216-219): record
`TRANSPOT_FINISHED`, set `closed` and set the closing event.  These three
statements run with no suspension point between them. -/
def transportFinal (st : ChanState) : ChanState :=
  let st1 := saveEvent st Ev.TRANSPOT_FINISHED
  { st1 with closed := true, closingEvent := true }

/-- `FullDuplexChannel.transport` (channel.py:209-219).  `startupF` is the
state transformation and outcome of `await self._transport_startup()`; the
nested `try`/`finally` semantics: cleanup always runs, the inner `finally`
always runs, and an exception from cleanup replaces the startup's. -/
def transport (startupF : ChanState → ChanState × Option PyExc)
    (env : CleanupEnv) (st : ChanState) : ChanState × Option PyExc :=
  let s := startupF st
  let c := transportCleanup env s.1
  (transportFinal c.1,
    match c.2 with
    | some e => some e
    | none => s.2)

/-- `FullDuplexChannel.close` (channel.py:198-207) at the moment its
`await self._closing_event.wait()` has returned and the `while` guard has
failed — which requires `closingEvent` to be set: the remaining statements
set `closed` if it is still false. -/
def channelCloseFinish (st : ChanState) : ChanState :=
  if st.closed then st else { st with closed := true }

/-! ## Deferred-cancel trigger (channel.py:58-62, 177-196) -/

/-- `TimeHandler = namedtuple('TimeHandler', 'hander when')`
(channel.py:58): the timer handle (spelled `hander` in the source) and the
absolute time at which it fires. -/
structure TimeHandler where
  hander : Unit
  when : Int
  deriving DecidableEq, Repr

/-- `TimeHandler.cancel` (channel.py:60-61) returns
`self.handler.cancel()` — but the namedtuple field is spelled `hander`, so
the attribute lookup `self.handler` raises `AttributeError`. -/
def TimeHandler.cancel (_ : TimeHandler) : Except PyExc Unit :=
  .error PyExc.attributeError

/-- The channel attributes read and written by `_close`: `closed`, the
live deferred-cancel trigger, and the current loop time. -/
structure ChannelCloseState where
  closed : Bool
  closingTrigger : Option TimeHandler
  loopTime : Int
  deriving DecidableEq, Repr

/-- The externally visible effect of one `_close` call. -/
inductive CloseEffect
  /-- `closed` was already true: nothing happens. -/
  | noop
  /-- `self.cancel()` was called: both tasks are cancelled now. -/
  | tasksCancelled
  /-- an existing trigger at or before the new deadline was kept. -/
  | keptExisting
  /-- a new trigger was scheduled to cancel both tasks at `when`. -/
  | scheduled (when : Int)
  deriving DecidableEq, Repr

/-- `FullDuplexChannel._close` (channel.py:177-196).  With `timeout = None`:
cancel any outstanding trigger and cancel both tasks.  Otherwise compute
`timeout - ((loop.time() - now) if now else 0)` (note `if now`: Python
truthiness, so `now = 0` contributes nothing); keep an existing trigger
whose `when` is at or before `loop.time() + timeout`, else cancel it; then
schedule a new trigger at `loop.time() + timeout`.  Every path through
`TimeHandler.cancel` raises (see its doc). -/
def closeStep (st : ChannelCloseState) (timeout now : Option Int) :
    Except PyExc (ChannelCloseState × CloseEffect) :=
  if st.closed then .ok (st, .noop)
  else
    match timeout with
    | none =>
      match st.closingTrigger with
      | some trig =>
        match trig.cancel with
        | .error e => .error e
        | .ok _ => .ok ({ st with closingTrigger := none }, .tasksCancelled)
      | none => .ok (st, .tasksCancelled)
    | some t =>
      let t2 := t - (match now with
        | some n => if n = 0 then 0 else st.loopTime - n
        | none => 0)
      match st.closingTrigger with
      | some trig =>
        if trig.when ≤ st.loopTime + t2 then .ok (st, .keptExisting)
        else
          match trig.cancel with
          | .error e => .error e
          | .ok _ =>
            .ok ({ st with closingTrigger := some ⟨(), st.loopTime + t2⟩ },
              .scheduled (st.loopTime + t2))
      | none =>
        .ok ({ st with closingTrigger := some ⟨(), st.loopTime + t2⟩ },
          .scheduled (st.loopTime + t2))

/-! ## Channel manager (channel.py:64-109) -/

/-- One `close_channel` invocation as issued by `ChannelManager.close`:
the channel (by identity) and the `timeout`/`now` arguments passed. -/
structure CloseCall where
  cid : Nat
  timeout : Option Int
  now : Option Int
  deriving DecidableEq, Repr

/-- The calls `ChannelManager.close` (channel.py:98-103) issues: one
`close_channel(c, timeout=timeout)` per live channel — the method's own
`now` parameter is not forwarded, so each call carries `now = None`. -/
def managerCloseCalls (channels : List Nat) (timeout _now : Option Int) : List CloseCall :=
  channels.map (fun c => { cid := c, timeout := timeout, now := none })

/-- `ChannelManager.close` (channel.py:98-103): set `closing`, then
`asyncio.wait` (return-when all-completed) over one `close_channel` per
live channel; `asyncio.wait` retains each task's exception without
raising, so every call runs to completion whatever the others do.
`outcome c` is the result of channel `c`'s close.  Returns the `closing`
flag, the surviving channel map (each `close_channel` pops its entry), and
the completed calls with their outcomes. -/
def managerClose (channels : List Nat) (timeout now : Option Int)
    (outcome : Nat → Except PyExc Unit) :
    Bool × List Nat × List (CloseCall × Except PyExc Unit) :=
  (true, [],
    (managerCloseCalls channels timeout now).map (fun call => (call, outcome call.cid)))

/-- `dict.pop(key, None)`: remove the entry with the given key. -/
def popKey : List (Nat × Nat) → Nat → List (Nat × Nat)
  | [], _ => []
  | kv :: rest, k => if kv.1 = k then rest else kv :: popKey rest k

/-- Lookup in the channels map. -/
def findKey : List (Nat × Nat) → Nat → Option Nat
  | [], _ => none
  | kv :: rest, k => if kv.1 = k then some kv.2 else findKey rest k

/-- `ChannelManager.close_channel` (channel.py:91-96): await
`channel.close` unless the channel is already closed; the `finally` clause
pops the channel's entry from `self.channels` whether `close` returned or
raised, and the exception (if any) then propagates. -/
def closeChannel (channels : List (Nat × Nat)) (cid : Nat) (chClosed : Bool)
    (closeOutcome : Except PyExc Unit) : List (Nat × Nat) × Except PyExc Unit :=
  (popKey channels cid, if chClosed then .ok () else closeOutcome)

/-! ## Concrete fixtures used by the theorems -/

/-- A middleware that appends `"1"` on forward and prepends `"1"` on
backward (as in spec §8 scenario 3). -/
def mwApp1 : MW where
  name := "M1"
  forward := some (fun d => .ok (some ((d.getD "") ++ "1")))
  backward := some (fun d => .ok (some ("1" ++ (d.getD ""))))
  close := none

/-- A middleware that appends `"2"` on forward and prepends `"2"` on
backward. -/
def mwApp2 : MW where
  name := "M2"
  forward := some (fun d => .ok (some ((d.getD "") ++ "2")))
  backward := some (fun d => .ok (some ("2" ++ (d.getD ""))))
  close := none

/-- A registry with one forward hook that drops the chunk `"BBB"` (returns
`None`) and passes every other chunk unchanged (spec §8 scenario 2). -/
def dropBBBReg : MwRegistry :=
  registerAll [{ name := "D",
                 forward := some (fun d => .ok (if d = some "BBB" then none else d)),
                 backward := none, close := none }]

/-- Initial channel state for the transport theorems: debug on, no events,
not closed, closing event unset, both endpoints open. -/
def st0 : ChanState := ⟨true, [], false, false, false, false⟩

/-- Cleanup environment in which both endpoint closes succeed and the only
registered middleware close hook raises. -/
def envHookRaises : CleanupEnv := ⟨none, none, [("m", Except.error PyExc.osError)]⟩

/-! ## Helper lemmas -/

theorem saveEvent_debug (st : ChanState) (e : Ev) : (saveEvent st e).debug = st.debug := by
  unfold saveEvent; split <;> rfl

theorem saveEvent_events_of_debug (st : ChanState) (e : Ev) (h : st.debug = true) :
    (saveEvent st e).events = st.events ++ [e] := by
  unfold saveEvent; rw [h]; simp

theorem saveEvent_events_append (st : ChanState) (e : Ev) :
    ∃ l, (saveEvent st e).events = st.events ++ l := by
  unfold saveEvent; split
  · exact ⟨[e], rfl⟩
  · exact ⟨[], by simp⟩

theorem cleanupCloseFrontend_debug (env : CleanupEnv) (st : ChanState) :
    (cleanupCloseFrontend env st).1.debug = st.debug := by
  unfold cleanupCloseFrontend
  split
  · rfl
  · split
    · rfl
    · exact saveEvent_debug _ _

theorem cleanupCloseFrontend_events (env : CleanupEnv) (st : ChanState) :
    ∃ l, (cleanupCloseFrontend env st).1.events = st.events ++ l := by
  unfold cleanupCloseFrontend
  split
  · exact ⟨[], by simp⟩
  · split
    · exact ⟨[], by simp⟩
    · exact saveEvent_events_append _ _

theorem cleanupCloseBackend_debug (env : CleanupEnv) (st : ChanState) :
    (cleanupCloseBackend env st).1.debug = st.debug := by
  unfold cleanupCloseBackend
  split
  · rfl
  · split
    · rfl
    · exact saveEvent_debug _ _

theorem cleanupCloseBackend_events (env : CleanupEnv) (st : ChanState) :
    ∃ l, (cleanupCloseBackend env st).1.events = st.events ++ l := by
  unfold cleanupCloseBackend
  split
  · exact ⟨[], by simp⟩
  · split
    · exact ⟨[], by simp⟩
    · exact saveEvent_events_append _ _

theorem cleanupCloseFrontend_exc (env : CleanupEnv) (st : ChanState)
    (h : env.frontendCloseExc = none) : (cleanupCloseFrontend env st).2 = none := by
  unfold cleanupCloseFrontend
  split
  · rfl
  · rw [h]

theorem cleanupCloseBackend_exc (env : CleanupEnv) (st : ChanState)
    (h : env.backendCloseExc = none) : (cleanupCloseBackend env st).2 = none := by
  unfold cleanupCloseBackend
  split
  · rfl
  · rw [h]

theorem transportCleanup_debug (env : CleanupEnv) (st : ChanState) :
    (transportCleanup env st).1.debug = st.debug := by
  unfold transportCleanup
  cases hf : (cleanupCloseFrontend env st).2 with
  | some e => simp [hf, cleanupCloseFrontend_debug]
  | none =>
    cases hb : (cleanupCloseBackend env (cleanupCloseFrontend env st).1).2 with
    | some e => simp [hf, hb, cleanupCloseBackend_debug, cleanupCloseFrontend_debug]
    | none =>
      cases hh : (closeHooksRun env.closeHooks).2 with
      | error e =>
        simp [hf, hb, hh, cleanupCloseBackend_debug, cleanupCloseFrontend_debug]
      | ok u =>
        simp [hf, hb, hh, saveEvent_debug, cleanupCloseBackend_debug,
          cleanupCloseFrontend_debug]

theorem transportCleanup_events (env : CleanupEnv) (st : ChanState) :
    ∃ l, (transportCleanup env st).1.events = st.events ++ l := by
  unfold transportCleanup
  obtain ⟨lf, hfl⟩ := cleanupCloseFrontend_events env st
  obtain ⟨lb, hbl⟩ := cleanupCloseBackend_events env (cleanupCloseFrontend env st).1
  cases hf : (cleanupCloseFrontend env st).2 with
  | some e => exact ⟨lf, by simp [hf, hfl]⟩
  | none =>
    cases hb : (cleanupCloseBackend env (cleanupCloseFrontend env st).1).2 with
    | some e => exact ⟨lf ++ lb, by simp [hf, hb, hbl, hfl]⟩
    | none =>
      cases hh : (closeHooksRun env.closeHooks).2 with
      | error e => exact ⟨lf ++ lb, by simp [hf, hb, hh, hbl, hfl]⟩
      | ok u =>
        obtain ⟨lc, hcl⟩ :=
          saveEvent_events_append (cleanupCloseBackend env (cleanupCloseFrontend env st).1).1
            Ev.CLEANUP_FINISHED
        exact ⟨lf ++ lb ++ lc, by simp [hf, hb, hh, hcl, hbl, hfl]⟩

theorem transportCleanup_ok_events (env : CleanupEnv) (st : ChanState)
    (hd : st.debug = true)
    (h1 : env.frontendCloseExc = none) (h2 : env.backendCloseExc = none)
    (h3 : (closeHooksRun env.closeHooks).2 = .ok ()) :
    ∃ l, (transportCleanup env st).1.events = st.events ++ l ++ [Ev.CLEANUP_FINISHED] := by
  unfold transportCleanup
  obtain ⟨lf, hfl⟩ := cleanupCloseFrontend_events env st
  obtain ⟨lb, hbl⟩ := cleanupCloseBackend_events env (cleanupCloseFrontend env st).1
  have hfe := cleanupCloseFrontend_exc env st h1
  have hbe := cleanupCloseBackend_exc env (cleanupCloseFrontend env st).1 h2
  have hbd : (cleanupCloseBackend env (cleanupCloseFrontend env st).1).1.debug = true := by
    rw [cleanupCloseBackend_debug, cleanupCloseFrontend_debug, hd]
  refine ⟨lf ++ lb, ?_⟩
  simp [hfe, hbe, h3, saveEvent_events_of_debug _ _ hbd, hbl, hfl]

/-! ## Claim C1: transport's finally block -/

/-- C1 counterexample: the claim says that regardless of which errors occur
in the middleware close hooks, the channel emits `CLEANUP_FINISHED` and
then `TRANSPOT_FINISHED`.  With a single raising close hook, `transport`
on a fresh debug channel emits `FRONTEND_CLOSE`, `BACKEND_CLOSE`,
`TRANSPOT_FINISHED` — no `CLEANUP_FINISHED` — and re-raises the hook's
exception. -/
theorem C1_cleanup_event_skipped_on_hook_error :
    (transport (fun s => (s, none)) envHookRaises st0).1.events
        = [Ev.FRONTEND_CLOSE, Ev.BACKEND_CLOSE, Ev.TRANSPOT_FINISHED] ∧
    Ev.CLEANUP_FINISHED ∉ (transport (fun s => (s, none)) envHookRaises st0).1.events ∧
    (transport (fun s => (s, none)) envHookRaises st0).2 = some PyExc.osError :=
  ⟨rfl, by decide, rfl⟩

/-- C1 (amended): for every startup behaviour that only appends events and
preserves the debug flag, and for every cleanup environment, `transport` on
a debug channel leaves `closed = true`, the closing event signalled, and
`TRANSPOT_FINISHED` as the last event; when both endpoint closes and all
middleware close hooks succeed the last two events are `CLEANUP_FINISHED`
then `TRANSPOT_FINISHED`; and `transport` is the only operation that flips
`closed`: the tail of `channel.close` (which resumes only once the closing
event is set) never changes a state in which the closing event implies
`closed` — the only writer of the closing event, `transport`, sets `closed`
in the same step. -/
theorem C1_transport_finally (startupF : ChanState → ChanState × Option PyExc)
    (env : CleanupEnv) (st : ChanState)
    (hdebug : st.debug = true)
    (hsd : (startupF st).1.debug = st.debug)
    (hse : ∃ l, (startupF st).1.events = st.events ++ l) :
    (transport startupF env st).1.closed = true ∧
    (transport startupF env st).1.closingEvent = true ∧
    (∃ l, (transport startupF env st).1.events = st.events ++ l ++ [Ev.TRANSPOT_FINISHED]) ∧
    (env.frontendCloseExc = none → env.backendCloseExc = none →
      (closeHooksRun env.closeHooks).2 = .ok () →
      ∃ l, (transport startupF env st).1.events
          = st.events ++ l ++ [Ev.CLEANUP_FINISHED, Ev.TRANSPOT_FINISHED]) ∧
    (∀ s : ChanState, s.closingEvent = true → s.closed = true →
      channelCloseFinish s = s) := by
  obtain ⟨ls, hls⟩ := hse
  have hcd : (transportCleanup env (startupF st).1).1.debug = true := by
    rw [transportCleanup_debug, hsd, hdebug]
  refine ⟨rfl, rfl, ?_, ?_, ?_⟩
  · obtain ⟨lc, hlc⟩ := transportCleanup_events env (startupF st).1
    refine ⟨ls ++ lc, ?_⟩
    show (transportFinal (transportCleanup env (startupF st).1).1).events = _
    unfold transportFinal
    rw [saveEvent_events_of_debug _ _ hcd, hlc, hls]
    simp
  · intro h1 h2 h3
    obtain ⟨lc, hlc⟩ :=
      transportCleanup_ok_events env (startupF st).1 (by rw [hsd, hdebug]) h1 h2 h3
    refine ⟨ls ++ lc, ?_⟩
    show (transportFinal (transportCleanup env (startupF st).1).1).events = _
    unfold transportFinal
    rw [saveEvent_events_of_debug _ _ hcd, hlc, hls]
    simp
  · intro s hev hcl
    unfold channelCloseFinish
    rw [hcl]
    simp

/-- C1 witness: the amended theorem applied to a trivial startup and a
benign cleanup environment on the fresh debug state. -/
theorem C1_transport_finally_witness :
    (transport (fun s => (s, none)) (⟨none, none, []⟩ : CleanupEnv) st0).1.closed = true :=
  (C1_transport_finally (fun s => (s, none)) ⟨none, none, []⟩ st0 rfl rfl
    ⟨[], (List.append_nil _).symm⟩).1

/-! ## Claim C2: cancellation during reads and writes -/

/-- C2 counterexample: the claim says an exception originating from task
cancellation is never recorded as a `FRONTEND_READ_ERROR` event and
propagates out of the task.  But `_do_build_connection` guards the read
with `except BaseException` (channel.py:282-284): a `CancelledError` from
the read is recorded as `FRONTEND_READ_ERROR` and the action merely hands
off to `_do_close_backend` — nothing propagates. -/
theorem C2_cancelled_read_recorded :
    buildConnStep false (fun d => Except.ok d) (Except.error PyExc.cancelled) []
      = ([Ev.FRONTEND_READ_ERROR], BuildExit.toCloseBackend) := rfl

/-- C2 (amended): a cancellation delivered at a read or write inside the
action steps is caught like any other exception: `_do_build_connection`
and `_do_upstream` record `FRONTEND_READ_ERROR` for a cancelled frontend
read, `_do_downstream` records `BACKEND_READ_ERROR` for a cancelled
backend read, and a cancelled backend write is recorded as
`BACKEND_WRITE_ERROR` (under the repository's Python, `CancelledError` is
an `Exception`); in every case the loop breaks into the direction's close
action and the cancellation does not propagate out of the task. -/
theorem C2_cancelled_io_swallowed (events : List Ev)
    (mw : Option String → Except PyExc (Option String)) (connected : Bool)
    (wx : Option PyExc) (wrote : List String) :
    buildConnStep connected mw (Except.error PyExc.cancelled) events
        = (events ++ [Ev.FRONTEND_READ_ERROR], BuildExit.toCloseBackend) ∧
    upstreamIterRead mw ⟨wx, Except.error PyExc.cancelled⟩ wrote events
        = (events ++ [Ev.FRONTEND_READ_ERROR], wrote, UpIterRes.exitClose) ∧
    downstreamIter mw (Except.error PyExc.cancelled) wx events
        = (events ++ [Ev.BACKEND_READ_ERROR], [], true) ∧
    upstreamIter mw ⟨some PyExc.cancelled, Except.ok "z"⟩ (some "a") events
        = (events ++ [Ev.BACKEND_WRITE_ERROR], [], UpIterRes.exitClose) :=
  ⟨rfl, rfl, rfl, rfl⟩

/-! ## Claim C3: null-id middleware removal -/

/-- C3: the claim says a null-id entry removes every already-accepted entry
of the same class, so that `[(cls=A,id=10), (cls=A,id=null)]` registers no
middleware.  Evaluating `load_middlewares` at that configuration instead
raises `UnboundLocalError`: the `remove` helper's final statement assigns
`sorted_confs`, making the name local to `remove`, so its read at
middleware.py:37 fails before any filtering happens. -/
theorem C3_null_id_removal_crashes :
    loadMiddlewares [⟨some 10, "A"⟩, ⟨none, "A"⟩] = .error PyExc.unboundLocalError := rfl

/-! ## Claim C4: deferred-cancel trigger scheduling -/

/-- C4: the claim says `_close` with a null timeout cancels the outstanding
trigger, and with a later deadline replaces it.  Evaluating `_close` shows
both paths that call `TimeHandler.cancel` raise `AttributeError` (the
namedtuple field is `hander`, the method reads `self.handler`); only the
keep-existing path (deadline at or before the new one) and the
first-scheduling path work. -/
theorem C4_trigger_cancel_crashes :
    closeStep ⟨false, some ⟨(), 20⟩, 10⟩ none none = .error PyExc.attributeError ∧
    closeStep ⟨false, some ⟨(), 20⟩, 10⟩ (some 2) none = .error PyExc.attributeError ∧
    closeStep ⟨false, some ⟨(), 20⟩, 10⟩ (some 15) none
        = .ok (⟨false, some ⟨(), 20⟩, 10⟩, .keptExisting) ∧
    closeStep ⟨false, none, 10⟩ (some 5) (some 4)
        = .ok (⟨false, some ⟨(), 9⟩, 10⟩, .scheduled 9) := by
  refine ⟨?_, ?_, ?_, ?_⟩ <;> decide

/-! ## Claim C9: the null endpoint -/

/-- C9: the claim says the null endpoint has `closed` true from
construction, reads yield EOF immediately, `write(data)` and `close()` are
no-ops, and its boolean view is false.  All of that holds except
`write(data)`: the override is `def write(self): pass` with no data
parameter, so the call `write(data)` raises `TypeError`; only the
zero-argument call is a no-op. -/
theorem C9_null_endpoint_eval :
    NullEndpoint.closed = true ∧
    (∀ n : Int, NullEndpoint.read n = "") ∧
    NullEndpoint.boolView = false ∧
    NullEndpoint.closeOp = () ∧
    NullEndpoint.writeCall [] = .ok () ∧
    (∀ d : String, NullEndpoint.writeCall [d] = .error PyExc.typeError) :=
  ⟨rfl, fun _ => rfl, rfl, rfl, rfl, fun _ => rfl⟩

/-! ## Claim C5: drop semantics of the pipeline -/

theorem upstreamIterRead_wrote (mw : Option String → Except PyExc (Option String))
    (inp : UpIterIn) (wrote : List String) (events : List Ev) :
    (upstreamIterRead mw inp wrote events).2.1 = wrote := by
  unfold upstreamIterRead
  split
  · rfl
  · split
    · rfl
    · split
      · split <;> rfl
      · rfl

/-- C5 counterexample: the claim says a callback returning an empty value
short-circuits the pipeline (later callbacks are not invoked) and the
result is a drop.  With a first callback returning `b""` and a second
appending `"!"`, `_action` invokes both callbacks (the `data is None`
check does not fire on `b""`) and returns `b"!"`, which the caller then
writes — no short-circuit and no drop. -/
theorem C5_empty_does_not_short_circuit :
    actionRun [⟨"c1", fun _ => Except.ok (some "")⟩,
               ⟨"c2", fun d => Except.ok (some ((d.getD "") ++ "!"))⟩] (some "a")
        = (["c1", "c2"], Except.ok (some "!")) ∧
    (actionRun [⟨"c1", fun _ => Except.ok (some "")⟩,
                ⟨"c2", fun d => Except.ok (some ((d.getD "") ++ "!"))⟩] (some "a")).2
        ≠ Except.ok none :=
  ⟨rfl, by decide⟩

/-- C5 (amended): only a callback returning `None` short-circuits
`_action`: after a prefix that passes the chunk through, a `None`-returning
callback ends the pipeline without invoking the callbacks after it, and
the result is `None`; at the writer, a falsy pipeline output (`None` or
empty) contributes no bytes to the peer; and in a full `_do_upstream` run
where the pipeline drops the middle chunk of `AAA`, `BBB`, `CCC`, exactly
`AAA` then `CCC` are written while the loop continues to completion. -/
theorem C5_pipeline_drop (hooks1 : List Hook) (o : String) (hooks2 : List Hook)
    (data : Option String) (v : String)
    (hpre : actionRun hooks1 data = (hooks1.map Hook.owner, Except.ok (some v))) :
    actionRun (hooks1 ++ (⟨o, fun _ => Except.ok none⟩ : Hook) :: hooks2) data
        = (hooks1.map Hook.owner ++ [o], Except.ok none) ∧
    (∀ mw inp d2 events, pyTruthy d2 = false →
      (upstreamIter mw inp d2 events).2.1 = []) ∧
    upstreamRun dropBBBReg.upstreamPipeline
        [⟨none, Except.ok "AAA"⟩, ⟨none, Except.ok "BBB"⟩,
         ⟨none, Except.ok "CCC"⟩, ⟨none, Except.ok ""⟩] none []
      = ([Ev.FRONTEND_READ_FINISHED], ["AAA", "CCC"], true) := by
  refine ⟨?_, ?_, by decide⟩
  · induction hooks1 generalizing data with
    | nil =>
      simp [actionRun] at hpre
      subst hpre
      simp [actionRun]
    | cons hd tl ih =>
      cases h : hd.fn data with
      | error e => simp [actionRun, h] at hpre
      | ok d =>
        cases d with
        | none => simp [actionRun, h] at hpre
        | some s =>
          simp [actionRun, h] at hpre
          have hres := ih (some s) (Prod.ext_iff.mpr ⟨hpre.1, hpre.2⟩)
          simp [actionRun, h, hres]
  · intro mw inp d2 events hfalse
    rw [upstreamIter, hfalse]
    simp only [Bool.false_eq_true, if_false]
    exact upstreamIterRead_wrote mw inp [] events

/-- C5 witness: the amended theorem with an empty prefix, a dropping
callback named `"z"`, and the chunk `b"a"`. -/
theorem C5_pipeline_drop_witness :
    actionRun [(⟨"z", fun _ => Except.ok none⟩ : Hook)] (some "a")
      = (["z"], Except.ok none) :=
  (C5_pipeline_drop [] "z" [] (some "a") "a" rfl).1

/-! ## Claim C6: close hooks after a failing hook -/

/-- C6 counterexample: the claim says an exception raised by one close hook
is logged and does not prevent the remaining hooks from running.
`MiddlewareManager.close` has no exception handler: with hooks
`h1` (raising) then `h2`, only `h1` is awaited and its exception
propagates; `h2` never runs. -/
theorem C6_failing_hook_aborts_rest :
    closeHooksRun [("h1", Except.error PyExc.osError), ("h2", Except.ok ())]
        = (["h1"], Except.error PyExc.osError) ∧
    "h2" ∉ (closeHooksRun [("h1", Except.error PyExc.osError), ("h2", Except.ok ())]).1 :=
  ⟨rfl, by decide⟩

/-- C6 (amended): `MiddlewareManager.close` invokes the close hooks in
registration order up to and including the first failing hook, whose
exception propagates and aborts the remaining hooks; when every hook
succeeds, all hooks run in order. -/
theorem C6_close_hooks_order (hooks1 : List (String × Except PyExc Unit)) (o : String)
    (e : PyExc) (hooks2 : List (String × Except PyExc Unit))
    (h1 : ∀ h ∈ hooks1, h.2 = Except.ok ()) :
    closeHooksRun (hooks1 ++ (o, Except.error e) :: hooks2)
        = (hooks1.map Prod.fst ++ [o], Except.error e) ∧
    closeHooksRun hooks1 = (hooks1.map Prod.fst, Except.ok ()) := by
  induction hooks1 with
  | nil => simp [closeHooksRun]
  | cons hd tl ih =>
    have hh : hd.2 = Except.ok () := h1 hd (by simp)
    have ht := ih (fun h hm => h1 h (by simp [hm]))
    obtain ⟨hd1, hd2⟩ := hd
    simp only [] at hh
    subst hh
    simp [closeHooksRun, ht.1, ht.2]

/-- C6 witness: the amended theorem with a succeeding hook `a`, a failing
hook `b` and a never-reached hook `c`. -/
theorem C6_close_hooks_order_witness :
    closeHooksRun [("a", Except.ok ()), ("b", Except.error PyExc.osError),
                   ("c", Except.ok ())]
      = (["a", "b"], Except.error PyExc.osError) :=
  (C6_close_hooks_order [("a", Except.ok ())] "b" PyExc.osError [("c", Except.ok ())]
    (by decide)).1

/-! ## Claim C7: registration order and the onion -/

/-- C7 counterexample: the claim computes that with M1/M2 appending
`1`/`2` on forward and prepending them on backward, a backend byte `b"y"`
reaches the frontend as `b"21y"`.  The backward callback list is
`[M2.backward, M1.backward]`, so M2 prepends first and M1 prepends last:
the result is `b"12y"`, not `b"21y"`. -/
theorem C7_backward_result :
    ((registerAll [mwApp1, mwApp2]).backwardRun (some "y")).2 = Except.ok (some "12y") ∧
    (Except.ok (some "12y") : Except PyExc (Option String)) ≠ Except.ok (some "21y") :=
  ⟨rfl, by decide⟩

/-- C7 (amended): for middlewares M1 registered before M2, each overriding
both hooks, the registry holds the forward callbacks in order
`[M1.forward, M2.forward]` and the backward callbacks in the reverse order
`[M2.backward, M1.backward]`; with M1/M2 appending `1`/`2` on forward and
prepending them on backward, a frontend byte `b"x"` reaches the backend as
`b"x12"` and a backend byte `b"y"` reaches the frontend as `b"12y"`. -/
theorem C7_registration_order (m1 m2 : MW)
    (f1 f2 b1 b2 : Option String → Except PyExc (Option String))
    (h1 : m1.forward = some f1) (h2 : m2.forward = some f2)
    (h3 : m1.backward = some b1) (h4 : m2.backward = some b2) :
    (registerAll [m1, m2]).forward_callbacks.map Hook.owner = [m1.name, m2.name] ∧
    (registerAll [m1, m2]).backward_callbacks.map Hook.owner = [m2.name, m1.name] ∧
    ((registerAll [mwApp1, mwApp2]).forwardRun (some "x")).2 = Except.ok (some "x12") ∧
    ((registerAll [mwApp1, mwApp2]).backwardRun (some "y")).2 = Except.ok (some "12y") := by
  refine ⟨?_, ?_, rfl, rfl⟩ <;>
    simp [registerAll, registerCallbacks, h1, h2, h3, h4]

/-- C7 witness: the amended theorem applied to the concrete appending
middlewares. -/
theorem C7_registration_order_witness :
    (registerAll [mwApp1, mwApp2]).forward_callbacks.map Hook.owner = ["M1", "M2"] :=
  (C7_registration_order mwApp1 mwApp2 _ _ _ _ rfl rfl rfl rfl).1

/-! ## Claim C8: fleet close -/

/-- C8 counterexample: the claim says `ChannelManager.close(timeout, now)`
propagates both the timeout and the caller's `now` to `close_channel`.
The source passes only `timeout` (channel.py:102): with one live channel,
caller `now = 4`, the issued call carries `now = None`; observably, at loop
time 10 with `timeout = 5`, `_close` schedules the trigger at 15 rather
than at the claimed deadline `now + timeout = 9`. -/
theorem C8_now_not_propagated :
    managerCloseCalls [1] (some 5) (some 4)
        = [{ cid := 1, timeout := some 5, now := none }] ∧
    ({ cid := 1, timeout := some 5, now := some 4 } : CloseCall)
        ∉ managerCloseCalls [1] (some 5) (some 4) ∧
    closeStep ⟨false, none, 10⟩ (some 5) none
        = .ok (⟨false, some ⟨(), 15⟩, 10⟩, .scheduled 15) ∧
    closeStep ⟨false, none, 10⟩ (some 5) (some 4)
        = .ok (⟨false, some ⟨(), 9⟩, 10⟩, .scheduled 9) ∧
    (15 : Int) ≠ 9 :=
  ⟨rfl, by decide, by decide, by decide, by decide⟩

/-- C8 (amended): `ChannelManager.close` sets the closing flag and awaits
`close_channel(c, timeout)` for every live channel, propagating the
timeout but dropping the caller's `now` (each call carries `now = None`);
it returns only after every channel's close has settled, every channel is
removed from the map, and one channel's failure does not abort the
others: every channel's call and outcome appears in the completed set. -/
theorem C8_manager_close (channels : List Nat) (timeout now : Option Int)
    (outcome : Nat → Except PyExc Unit) :
    (managerClose channels timeout now outcome).1 = true ∧
    (managerClose channels timeout now outcome).2.1 = [] ∧
    (managerClose channels timeout now outcome).2.2.length = channels.length ∧
    (∀ p ∈ (managerClose channels timeout now outcome).2.2,
      p.1.now = none ∧ p.1.timeout = timeout) ∧
    (∀ c ∈ channels,
      ({ cid := c, timeout := timeout, now := none }, outcome c)
        ∈ (managerClose channels timeout now outcome).2.2) := by
  refine ⟨rfl, rfl, ?_, ?_, ?_⟩
  · simp [managerClose, managerCloseCalls]
  · intro p hp
    simp [managerClose, managerCloseCalls] at hp
    obtain ⟨c, hc, hpe⟩ := hp
    subst hpe
    exact ⟨rfl, rfl⟩
  · intro c hc
    simp [managerClose, managerCloseCalls]
    exact ⟨c, hc, rfl, rfl⟩

/-- C8 witness: the amended theorem on two channels, the first of which
fails its close. -/
theorem C8_manager_close_witness :
    (managerClose [1, 2] (some 5) (some 4)
        (fun c => if c = 1 then Except.error PyExc.osError else Except.ok ())).2.2.length
      = 2 :=
  (C8_manager_close [1, 2] (some 5) (some 4)
    (fun c => if c = 1 then Except.error PyExc.osError else Except.ok ())).2.2.1

/-! ## Claim C10: close_channel's frame -/

theorem findKey_eq_none_of_not_mem (l : List (Nat × Nat)) (k : Nat)
    (h : k ∉ l.map Prod.fst) : findKey l k = none := by
  induction l with
  | nil => rfl
  | cons a t ih =>
    simp only [List.map_cons, List.mem_cons] at h
    push_neg at h
    rw [findKey]
    rw [if_neg (fun hh => h.1 hh.symm)]
    exact ih h.2

theorem findKey_popKey_self (l : List (Nat × Nat)) (k : Nat)
    (h : (l.map Prod.fst).Nodup) : findKey (popKey l k) k = none := by
  induction l with
  | nil => rfl
  | cons a t ih =>
    simp only [List.map_cons, List.nodup_cons] at h
    rw [popKey]
    by_cases ha : a.1 = k
    · rw [if_pos ha]
      exact findKey_eq_none_of_not_mem t k (ha ▸ h.1)
    · rw [if_neg ha, findKey, if_neg ha]
      exact ih h.2

theorem findKey_popKey_other (l : List (Nat × Nat)) (k k2 : Nat) (hk : k2 ≠ k) :
    findKey (popKey l k) k2 = findKey l k2 := by
  induction l with
  | nil => rfl
  | cons a t ih =>
    rw [popKey]
    by_cases ha : a.1 = k
    · rw [if_pos ha, findKey, if_neg (fun (hh : a.1 = k2) => hk (hh ▸ ha))]
    · rw [if_neg ha, findKey, findKey]
      by_cases hb : a.1 = k2
      · rw [if_pos hb, if_pos hb]
      · rw [if_neg hb, if_neg hb]
        exact ih

/-- C10: after `ChannelManager.close_channel` completes — whether
`channel.close` returned normally or raised — the channel's entry is gone
from the manager's map, every other entry is untouched, and the close's
outcome (success for an already-closed channel, else whatever
`channel.close` did) propagates. -/
theorem C10_close_channel_frame (channels : List (Nat × Nat)) (cid : Nat)
    (chClosed : Bool) (outcome : Except PyExc Unit)
    (hnodup : (channels.map Prod.fst).Nodup) :
    findKey (closeChannel channels cid chClosed outcome).1 cid = none ∧
    (∀ k, k ≠ cid → findKey (closeChannel channels cid chClosed outcome).1 k
        = findKey channels k) ∧
    (closeChannel channels cid chClosed outcome).2
        = (if chClosed then Except.ok () else outcome) :=
  ⟨findKey_popKey_self channels cid hnodup,
   fun k hk => findKey_popKey_other channels cid k hk,
   rfl⟩

/-- C10 witness: a two-entry map with channel 1 closing exceptionally —
entry 1 is removed, entry 2 is untouched. -/
theorem C10_close_channel_frame_witness :
    findKey (closeChannel [(1, 10), (2, 20)] 1 false (Except.error PyExc.osError)).1 1
      = none :=
  (C10_close_channel_frame [(1, 10), (2, 20)] 1 false (Except.error PyExc.osError)
    (by decide)).1

end OsAioPodChannel
